import Mathlib

/-!
Verification of the seastar filesystem aligned disk buffer
(`src/src/fs/to_disk_buffer.hh`) and of the filesystem exception
hierarchy (`src/include/seastar/fs/exceptions.hh`).

The buffer state, `init`, `flush_to_disk`, `acknowledge_write`,
`bytes_left` and `bytes_left_after_flush_if_done_now` are translated
from `to_disk_buffer.hh`.  The bit-manipulation helpers of
`seastar/fs/bitwise.hh` and the width of `disk_offset_t` from
`seastar/fs/unit_types.hh` are not part of the sources; they are
modelled from the spec (power-of-two alignment, rounding up to the next
multiple of the alignment, 64-bit offsets/sizes).
-/

namespace SeastarFs

/-- Modelled from the spec: `is_power_of_2` from the missing
`seastar/fs/bitwise.hh`.  The spec calls the alignment a
"required power-of-two byte boundary"; this decides `∃ k, x = 2 ^ k`
(searching `k ≤ x` is exhaustive because `k < 2 ^ k`), see
`is_power_of_2_iff`. -/
def is_power_of_2 (x : Nat) : Bool :=
  (List.range (x + 1)).any fun k => x == 2 ^ k

/-- Modelled from the spec: `mod_by_power_of_2` from the missing
`seastar/fs/bitwise.hh`; for a power-of-two modulus it is the remainder. -/
def mod_by_power_of_2 (x a : Nat) : Nat := x % a

/-- Modelled from the spec: `round_up_to_multiple_of_power_of_2` from the
missing `seastar/fs/bitwise.hh`; the spec says "round the unflushed `end`
up to the next multiple of `alignment`". -/
def round_up_to_multiple_of_power_of_2 (x a : Nat) : Nat :=
  (x + a - 1) / a * a

/-- Modelled from the spec: the maximum of `decltype(_buff.size())`
(`size_t`), with the spec's 64-bit device offsets. -/
def size_t_max : Nat := 2 ^ 64 - 1

/-- The `range<size_t>` type from `seastar/fs/unit_types.hh` (missing from the
sources), exactly as used by `to_disk_buffer`: a `[beg, end)` interval. -/
structure Range where
  beg : Nat
  end_ : Nat
deriving DecidableEq

/-- Translation of `range::size()`: length of the `[beg, end)` interval. -/
def Range.size (r : Range) : Nat := r.end_ - r.beg

/-- State of `class to_disk_buffer` (`to_disk_buffer.hh`).
`buff` models the byte contents of `_buff` as a list of bytes;
the remaining fields are `_max_size`, `_alignment`,
`_cluster_beg_offset` and `_unflushed_data`. -/
structure ToDiskBuffer where
  buff : List Nat
  max_size : Nat
  alignment : Nat
  cluster_beg_offset : Nat
  unflushed_data : Range
deriving DecidableEq

/-- The default-constructed `to_disk_buffer`: all scalar members zero,
empty buffer, `_unflushed_data = {0, 0}`. -/
def to_disk_buffer_default : ToDiskBuffer :=
  { buff := [], max_size := 0, alignment := 0, cluster_beg_offset := 0,
    unflushed_data := { beg := 0, end_ := 0 } }

/-- The `enum init_error` from `to_disk_buffer.hh`. -/
inductive InitError
  | ALIGNMENT_IS_NOT_2_POWER
  | MAX_SIZE_IS_NOT_ALIGNED
  | CLUSTER_BEG_OFFSET_IS_NOT_ALIGNED
  | MAX_SIZE_TOO_BIG
deriving DecidableEq

/-- Translation of `to_disk_buffer::init(aligned_max_size, alignment, cluster_beg_offset)`.
Returns the `std::optional<init_error>` together with the resulting state;
on error the state is returned untouched, exactly as in the source where
all member writes happen after the four checks.  The freshly allocated
aligned buffer's contents are unspecified in the source; the model takes
zeroes (no theorem depends on the fresh contents).
`start_new_unflushed_data()` is a no-op in this class. -/
def init (b : ToDiskBuffer) (aligned_max_size alignment cluster_beg_offset : Nat) :
    Option InitError × ToDiskBuffer :=
  if ¬ is_power_of_2 alignment then
    (some .ALIGNMENT_IS_NOT_2_POWER, b)
  else if mod_by_power_of_2 aligned_max_size alignment ≠ 0 then
    (some .MAX_SIZE_IS_NOT_ALIGNED, b)
  else if mod_by_power_of_2 cluster_beg_offset alignment ≠ 0 then
    (some .CLUSTER_BEG_OFFSET_IS_NOT_ALIGNED, b)
  else if aligned_max_size > size_t_max then
    (some .MAX_SIZE_TOO_BIG, b)
  else
    (none,
     { buff := List.replicate aligned_max_size 0,
       max_size := aligned_max_size,
       alignment := alignment,
       cluster_beg_offset := cluster_beg_offset,
       unflushed_data := { beg := 0, end_ := 0 } })

/-- Model of `std::memset(_buff.get_write() + beg, 0, len)` on the list of bytes. -/
def memset_zero (l : List Nat) (beg len : Nat) : List Nat :=
  l.take beg ++ List.replicate len 0 ++ l.drop (beg + len)

/-- Modelled from the spec: disk offsets are u64 (`write(offset: u64, ...)`),
so the source's `_cluster_beg_offset + real_write.beg` is computed modulo
`2 ^ 64`. -/
def uint64_mod : Nat := 2 ^ 64

/-- One write request issued to the `block_device`:
`device.write(offset, ptr, length)`, with `data` the bytes the pointer
refers to (`length` bytes of the buffer starting at `real_write.beg`). -/
structure WriteReq where
  offset : Nat
  data : List Nat
  length : Nat
deriving DecidableEq

/-- Translation of `to_disk_buffer::flush_to_disk(device)`, up to (not including) the
write completion.  Returns `none` when the `assert` on the alignment of
`_unflushed_data.beg` fires; otherwise returns the post-call state and
the write request issued to the device (`none` when the `beg == max_size`
no-op branch returns early).  `prepare_unflushed_data_for_flush()` and
`start_new_unflushed_data()` are no-ops in this class.  The device write
offset `_cluster_beg_offset + real_write.beg` is `disk_offset_t` (u64)
arithmetic in the source, hence reduced modulo `2 ^ 64`. -/
def flush_to_disk (b : ToDiskBuffer) : Option (ToDiskBuffer × Option WriteReq) :=
  if b.unflushed_data.beg = b.max_size then
    some (b, none)
  else if mod_by_power_of_2 b.unflushed_data.beg b.alignment ≠ 0 then
    none
  else
    let real_write : Range :=
      { beg := b.unflushed_data.beg,
        end_ := round_up_to_multiple_of_power_of_2 b.unflushed_data.end_ b.alignment }
    let padding : Range :=
      { beg := b.unflushed_data.end_, end_ := real_write.end_ }
    let buff2 := memset_zero b.buff padding.beg padding.size
    some
      ({ b with
         buff := buff2,
         unflushed_data := { beg := real_write.end_, end_ := real_write.end_ } },
       some
         { offset := (b.cluster_beg_offset + real_write.beg) % uint64_mod,
           data := (buff2.drop real_write.beg).take real_write.size,
           length := real_write.size })

/-- Outcome of the continuation attached to the device write in
`flush_to_disk`: `shortWriteError` models
`make_exception_future(std::runtime_error("Partial write"))`. -/
inductive FlushOutcome
  | ok
  | shortWriteError
deriving DecidableEq

/-- The `.then` continuation of the device write in `flush_to_disk`:
`if (written_bytes != real_write.size()) ... "Partial write" ...`.
There is no retry path. -/
def flush_write_completion (requested written : Nat) : FlushOutcome :=
  if written ≠ requested then .shortWriteError else .ok

/-- Translation of `to_disk_buffer::bytes_left()`: `_max_size - _unflushed_data.end`. -/
def bytes_left (b : ToDiskBuffer) : Nat :=
  b.max_size - b.unflushed_data.end_

/-- Translation of `to_disk_buffer::bytes_left_after_flush_if_done_now()`. -/
def bytes_left_after_flush_if_done_now (b : ToDiskBuffer) : Nat :=
  b.max_size -
    round_up_to_multiple_of_power_of_2 b.unflushed_data.end_ b.alignment

/-- Translation of `to_disk_buffer::acknowledge_write(len)`: asserts
`len <= bytes_left()` (modelled as `none` when the assertion fires) and
advances `_unflushed_data.end`. -/
def acknowledge_write (b : ToDiskBuffer) (len : Nat) : Option ToDiskBuffer :=
  if len ≤ bytes_left b then
    some { b with
           unflushed_data :=
             { b.unflushed_data with end_ := b.unflushed_data.end_ + len } }
  else
    none

/-! ## The exception hierarchy of `seastar/fs/exceptions.hh` -/

/-- The classes declared in `seastar/fs/exceptions.hh`, plus their common
root `std::exception`. -/
inductive ExcClass
  | std_exception
  | fs_exception
  | cluster_size_too_small_to_perform_operation_exception
  | invalid_inode_exception
  | invalid_argument_exception
  | operation_became_invalid_exception
  | no_more_space_exception
  | file_already_exists_exception
  | filename_too_long_exception
  | is_directory_exception
  | directory_not_empty_exception
  | cannot_modify_root_exception
  | file_used_on_unintended_shard_exception
  | invalid_cluster_range_exception
  | too_little_available_clusters_exception
  | file_has_been_closed_exception
  | filesystem_has_not_been_invalidated_exception
  | path_lookup_exception
  | path_is_not_absolute_exception
  | invalid_path_exception
  | no_such_file_or_directory_exception
  | path_component_not_directory_exception
  | bootstrap_exception
  | ml_cluster_loop_exception
  | failed_ml_cluster_read_exception
  | ml_invalid_entry_exception
  | ml_and_dl_overlap
deriving DecidableEq

/-- The direct public base class of each class, copied from the
`struct X : public Y` declarations in `seastar/fs/exceptions.hh`. -/
def directBase : ExcClass → Option ExcClass
  | .std_exception => none
  | .fs_exception => some .std_exception
  | .cluster_size_too_small_to_perform_operation_exception => some .std_exception
  | .invalid_inode_exception => some .fs_exception
  | .invalid_argument_exception => some .fs_exception
  | .operation_became_invalid_exception => some .fs_exception
  | .no_more_space_exception => some .fs_exception
  | .file_already_exists_exception => some .fs_exception
  | .filename_too_long_exception => some .fs_exception
  | .is_directory_exception => some .fs_exception
  | .directory_not_empty_exception => some .fs_exception
  | .cannot_modify_root_exception => some .fs_exception
  | .file_used_on_unintended_shard_exception => some .fs_exception
  | .invalid_cluster_range_exception => some .fs_exception
  | .too_little_available_clusters_exception => some .fs_exception
  | .file_has_been_closed_exception => some .fs_exception
  | .filesystem_has_not_been_invalidated_exception => some .fs_exception
  | .path_lookup_exception => some .fs_exception
  | .path_is_not_absolute_exception => some .path_lookup_exception
  | .invalid_path_exception => some .path_lookup_exception
  | .no_such_file_or_directory_exception => some .path_lookup_exception
  | .path_component_not_directory_exception => some .path_lookup_exception
  | .bootstrap_exception => some .fs_exception
  | .ml_cluster_loop_exception => some .bootstrap_exception
  | .failed_ml_cluster_read_exception => some .bootstrap_exception
  | .ml_invalid_entry_exception => some .bootstrap_exception
  | .ml_and_dl_overlap => some .bootstrap_exception

/-- The class together with all its (transitive) base classes; the
hierarchy has depth at most 4, so fuel 4 is exact. -/
def ancestorsAux : Nat → Option ExcClass → List ExcClass
  | 0, _ => []
  | _, none => []
  | n + 1, some c => c :: ancestorsAux n (directBase c)

/-- All classes a value of class `c` can be caught as. -/
def ancestors (c : ExcClass) : List ExcClass := ancestorsAux 4 (some c)

/-- C++ subtyping: `c` is `d` or publicly derives (transitively) from `d`;
a `catch (const d&)` handler catches a thrown `c` exactly when this holds. -/
def isSubclassOf (c d : ExcClass) : Bool := (ancestors c).contains d

/-- Every error kind the header defines for the filesystem, i.e. every
class in `seastar/fs/exceptions.hh` other than the abstract common base
`fs_exception` itself (and the external root `std::exception`). -/
def fsErrorKinds : List ExcClass :=
  [ .cluster_size_too_small_to_perform_operation_exception,
    .invalid_inode_exception,
    .invalid_argument_exception,
    .operation_became_invalid_exception,
    .no_more_space_exception,
    .file_already_exists_exception,
    .filename_too_long_exception,
    .is_directory_exception,
    .directory_not_empty_exception,
    .cannot_modify_root_exception,
    .file_used_on_unintended_shard_exception,
    .invalid_cluster_range_exception,
    .too_little_available_clusters_exception,
    .file_has_been_closed_exception,
    .filesystem_has_not_been_invalidated_exception,
    .path_lookup_exception,
    .path_is_not_absolute_exception,
    .invalid_path_exception,
    .no_such_file_or_directory_exception,
    .path_component_not_directory_exception,
    .bootstrap_exception,
    .ml_cluster_loop_exception,
    .failed_ml_cluster_read_exception,
    .ml_invalid_entry_exception,
    .ml_and_dl_overlap ]

/-! ## Derived notions used to state and prove the claims -/

/-- The `real_write.end` of a flush: the unflushed `end` rounded up to the
next multiple of the alignment. -/
def flushRend (b : ToDiskBuffer) : Nat :=
  round_up_to_multiple_of_power_of_2 b.unflushed_data.end_ b.alignment

/-- Buffer contents after the padding `memset` of a flush. -/
def flushBuff (b : ToDiskBuffer) : List Nat :=
  memset_zero b.buff b.unflushed_data.end_ (flushRend b - b.unflushed_data.end_)

/-- Buffer state right after a non-no-op `flush_to_disk` returns. -/
def flushState (b : ToDiskBuffer) : ToDiskBuffer :=
  { b with
    buff := flushBuff b,
    unflushed_data := { beg := flushRend b, end_ := flushRend b } }

/-- The write request a non-no-op `flush_to_disk` issues to the device. -/
def flushWriteReq (b : ToDiskBuffer) : WriteReq :=
  { offset := (b.cluster_beg_offset + b.unflushed_data.beg) % uint64_mod,
    data := ((flushBuff b).drop b.unflushed_data.beg).take
      (flushRend b - b.unflushed_data.beg),
    length := flushRend b - b.unflushed_data.beg }

/-- The state invariant of a successfully `init`ed buffer: the recorded
alignment parameters are valid, the unflushed range is well-formed and in
bounds, its `beg` is aligned, and the byte list has the allocated size. -/
def Inv (b : ToDiskBuffer) : Prop :=
  is_power_of_2 b.alignment = true ∧
  b.max_size % b.alignment = 0 ∧
  b.cluster_beg_offset % b.alignment = 0 ∧
  b.unflushed_data.beg % b.alignment = 0 ∧
  b.unflushed_data.beg ≤ b.unflushed_data.end_ ∧
  b.unflushed_data.end_ ≤ b.max_size ∧
  b.buff.length = b.max_size

instance (b : ToDiskBuffer) : Decidable (Inv b) := by
  unfold Inv
  exact inferInstance

/-- States of one `to_disk_buffer` instance reachable from a successful
`init`, together with the list of write requests issued to the device so
far, in issue order.  `ack` is `acknowledge_write` (the append path:
callers write through `get_write()` and then acknowledge); `write_data`
models callers storing bytes through the `get_write()` pointer (any
same-length contents); `flush_noop` and `flush_write` are the two
non-asserting outcomes of `flush_to_disk`. -/
inductive Reachable : ToDiskBuffer → List WriteReq → Prop
  | init_ok (b0 : ToDiskBuffer) (m a c : Nat) (b : ToDiskBuffer)
      (h : init b0 m a c = (none, b)) : Reachable b []
  | ack (b : ToDiskBuffer) (ws : List WriteReq) (len : Nat) (b' : ToDiskBuffer)
      (hr : Reachable b ws) (h : acknowledge_write b len = some b') :
      Reachable b' ws
  | write_data (b : ToDiskBuffer) (ws : List WriteReq) (buff2 : List Nat)
      (hr : Reachable b ws) (h : buff2.length = b.buff.length) :
      Reachable { b with buff := buff2 } ws
  | flush_noop (b : ToDiskBuffer) (ws : List WriteReq) (b' : ToDiskBuffer)
      (hr : Reachable b ws) (h : flush_to_disk b = some (b', none)) :
      Reachable b' ws
  | flush_write (b : ToDiskBuffer) (ws : List WriteReq) (b' : ToDiskBuffer)
      (w : WriteReq) (hr : Reachable b ws)
      (h : flush_to_disk b = some (b', some w)) :
      Reachable b' (ws ++ [w])

/-- A list `vs` of virtual (unwrapped) disk positions for the writes `ws`
issued so far on buffer `b`: `vs[i]` is the value
`cluster_beg_offset + beg` the source computes for the `i`-th write before
the u64 wrap, so `ws[i].offset = vs[i] % 2 ^ 64`.  The virtual positions
start at or after the cluster base, stay inside the buffer's disk span,
are pairwise adjacent (`vs[i+1] = vs[i] + ws[i].length`), and the last one
ends exactly at the position of the buffer's next write. -/
def VirtualTrace (ws : List WriteReq) (vs : List Nat) (b : ToDiskBuffer) : Prop :=
  vs.length = ws.length ∧
  (∀ (i : Nat) (wi : WriteReq) (v : Nat), ws[i]? = some wi → vs[i]? = some v →
    wi.offset = v % uint64_mod ∧
    b.cluster_beg_offset ≤ v ∧
    v < b.cluster_beg_offset + b.max_size ∧
    v + wi.length ≤ b.cluster_beg_offset + b.unflushed_data.beg) ∧
  (∀ (i : Nat) (w1 : WriteReq) (v1 v2 : Nat), ws[i]? = some w1 →
    vs[i]? = some v1 → vs[i + 1]? = some v2 → v2 = v1 + w1.length) ∧
  (∀ (wl : WriteReq) (vl : Nat), ws[ws.length - 1]? = some wl →
    vs[vs.length - 1]? = some vl →
    vl + wl.length = b.cluster_beg_offset + b.unflushed_data.beg)

/-! ## Concrete states used by the witnesses -/

/-- The state produced by `init(8, 4, 0)` on a fresh buffer. -/
def bufEx : ToDiskBuffer :=
  { buff := List.replicate 8 0, max_size := 8, alignment := 4,
    cluster_beg_offset := 0, unflushed_data := { beg := 0, end_ := 0 } }

/-- State `bufEx` after acknowledging a 3-byte append. -/
def bufEx3 : ToDiskBuffer :=
  { bufEx with unflushed_data := { beg := 0, end_ := 3 } }

/-- State `bufEx3` after one flush. -/
def bufEx4 : ToDiskBuffer :=
  { bufEx with unflushed_data := { beg := 4, end_ := 4 } }

/-- State `bufEx4` after acknowledging a 2-byte append. -/
def bufEx6 : ToDiskBuffer :=
  { bufEx with unflushed_data := { beg := 4, end_ := 6 } }

/-- State `bufExMid` after its flush. -/
def bufExMid4 : ToDiskBuffer :=
  { buff := List.replicate 8 0, max_size := 8, alignment := 4,
    cluster_beg_offset := 4, unflushed_data := { beg := 4, end_ := 4 } }

/-- The write issued by the flush of `bufExMid`. -/
def wExMid : WriteReq := { offset := 4, data := [0, 0, 0, 0], length := 4 }

/-- State `bufEx6` after a second flush: fully consumed. -/
def bufEx8 : ToDiskBuffer :=
  { bufEx with unflushed_data := { beg := 8, end_ := 8 } }

/-- The write issued by the first flush of the example trace. -/
def wEx1 : WriteReq := { offset := 0, data := [0, 0, 0, 0], length := 4 }

/-- The write issued by the second flush of the example trace. -/
def wEx2 : WriteReq := { offset := 4, data := [0, 0, 0, 0], length := 4 }

/-- The state produced by `init(8, 4, 4)` followed by a 3-byte append. -/
def bufExMid : ToDiskBuffer :=
  { buff := List.replicate 8 0, max_size := 8, alignment := 4,
    cluster_beg_offset := 4, unflushed_data := { beg := 0, end_ := 3 } }

/-- The state produced by `init(8, 4, 2^64 - 4)`: a cluster base 4 bytes
below the end of the u64 offset space, accepted by every `init` check. -/
def bufW : ToDiskBuffer :=
  { buff := List.replicate 8 0, max_size := 8, alignment := 4,
    cluster_beg_offset := 2 ^ 64 - 4, unflushed_data := { beg := 0, end_ := 0 } }

/-- State `bufW` after acknowledging a 3-byte append. -/
def bufW3 : ToDiskBuffer :=
  { bufW with unflushed_data := { beg := 0, end_ := 3 } }

/-- State `bufW3` after one flush. -/
def bufW4 : ToDiskBuffer :=
  { bufW with unflushed_data := { beg := 4, end_ := 4 } }

/-- State `bufW4` after acknowledging a 2-byte append. -/
def bufW6 : ToDiskBuffer :=
  { bufW with unflushed_data := { beg := 4, end_ := 6 } }

/-- State `bufW6` after a second flush: fully consumed. -/
def bufW8 : ToDiskBuffer :=
  { bufW with unflushed_data := { beg := 8, end_ := 8 } }

/-- The write issued by the first flush of the wrap trace: u64 offset
`2^64 - 4`. -/
def wW1 : WriteReq := { offset := 2 ^ 64 - 4, data := [0, 0, 0, 0], length := 4 }

/-- The write issued by the second flush of the wrap trace: the source's
u64 sum `(2^64 - 4) + 4` wraps to offset `0`. -/
def wW2 : WriteReq := { offset := 0, data := [0, 0, 0, 0], length := 4 }

/-! ## Arithmetic facts about the modelled bitwise helpers -/

theorem is_power_of_2_iff (x : Nat) : is_power_of_2 x = true ↔ ∃ k, x = 2 ^ k := by
  unfold is_power_of_2
  rw [List.any_eq_true]
  constructor
  · rintro ⟨k, -, hk⟩
    exact ⟨k, by simpa using hk⟩
  · rintro ⟨k, rfl⟩
    refine ⟨k, List.mem_range.mpr ?_, by simp⟩
    have := Nat.lt_two_pow k
    omega

theorem is_power_of_2_pos {a : Nat} (h : is_power_of_2 a = true) : 0 < a := by
  obtain ⟨k, rfl⟩ := (is_power_of_2_iff a).mp h
  exact Nat.pos_pow_of_pos k (by omega)

theorem round_up_ge (x a : Nat) (ha : 0 < a) :
    x ≤ round_up_to_multiple_of_power_of_2 x a := by
  unfold round_up_to_multiple_of_power_of_2
  have h1 := Nat.div_add_mod (x + a - 1) a
  have h2 : (x + a - 1) % a < a := Nat.mod_lt _ ha
  rw [Nat.mul_comm]
  generalize a * ((x + a - 1) / a) = p at h1 ⊢
  generalize (x + a - 1) % a = r at h1 h2
  omega

theorem round_up_mod (x a : Nat) :
    round_up_to_multiple_of_power_of_2 x a % a = 0 := by
  unfold round_up_to_multiple_of_power_of_2
  exact Nat.mul_mod_left _ _

theorem round_up_le {x m a : Nat} (ha : 0 < a) (hm : m % a = 0) (hx : x ≤ m) :
    round_up_to_multiple_of_power_of_2 x a ≤ m := by
  unfold round_up_to_multiple_of_power_of_2
  obtain ⟨k, hk⟩ := Nat.dvd_of_mod_eq_zero hm
  subst hk
  have h1 : (x + a - 1) / a ≤ (a * k + a - 1) / a :=
    Nat.div_le_div_right (by omega)
  have h2 : (a * k + a - 1) / a = k := by
    have he : a * k + a - 1 = a * k + (a - 1) := by omega
    rw [he, Nat.mul_add_div ha]
    have hz : (a - 1) / a = 0 := Nat.div_eq_of_lt (by omega)
    omega
  calc (x + a - 1) / a * a ≤ k * a := Nat.mul_le_mul_right a (by omega)
    _ = a * k := Nat.mul_comm _ _

theorem sub_mod_eq_zero {x y a : Nat} (hx : x % a = 0)
    (hy : y % a = 0) : (x - y) % a = 0 := by
  have hd : a ∣ x - y :=
    Nat.dvd_sub' (Nat.dvd_of_mod_eq_zero hx) (Nat.dvd_of_mod_eq_zero hy)
  obtain ⟨k, hk⟩ := hd
  rw [hk]
  exact Nat.mul_mod_right a k

/-! ## Characterizations of the operations -/

theorem flush_noop_eq {b : ToDiskBuffer} (hbeg : b.unflushed_data.beg = b.max_size) :
    flush_to_disk b = some (b, none) := by
  unfold flush_to_disk
  rw [if_pos hbeg]

theorem flush_write_eq {b : ToDiskBuffer} (hbeg : b.unflushed_data.beg ≠ b.max_size)
    (halign : b.unflushed_data.beg % b.alignment = 0) :
    flush_to_disk b = some (flushState b, some (flushWriteReq b)) := by
  unfold flush_to_disk
  rw [if_neg hbeg, if_neg (by simp [mod_by_power_of_2, halign])]
  rfl

theorem flush_assert_eq {b : ToDiskBuffer} (hbeg : b.unflushed_data.beg ≠ b.max_size)
    (halign : b.unflushed_data.beg % b.alignment ≠ 0) :
    flush_to_disk b = none := by
  unfold flush_to_disk
  rw [if_neg hbeg, if_pos (by simp [mod_by_power_of_2, halign])]

theorem flush_noop_elim {b b' : ToDiskBuffer}
    (h : flush_to_disk b = some (b', none)) :
    b' = b ∧ b.unflushed_data.beg = b.max_size := by
  by_cases hbeg : b.unflushed_data.beg = b.max_size
  · rw [flush_noop_eq hbeg] at h
    simp only [Option.some.injEq, Prod.mk.injEq] at h
    exact ⟨h.1.symm, hbeg⟩
  · by_cases halign : b.unflushed_data.beg % b.alignment = 0
    · rw [flush_write_eq hbeg halign] at h
      simp at h
    · rw [flush_assert_eq hbeg halign] at h
      simp at h

theorem flush_write_elim {b b' : ToDiskBuffer} {w : WriteReq}
    (h : flush_to_disk b = some (b', some w)) :
    b.unflushed_data.beg ≠ b.max_size ∧
    b.unflushed_data.beg % b.alignment = 0 ∧
    b' = flushState b ∧ w = flushWriteReq b := by
  by_cases hbeg : b.unflushed_data.beg = b.max_size
  · rw [flush_noop_eq hbeg] at h
    simp at h
  · by_cases halign : b.unflushed_data.beg % b.alignment = 0
    · rw [flush_write_eq hbeg halign] at h
      simp only [Option.some.injEq, Prod.mk.injEq] at h
      exact ⟨hbeg, halign, h.1.symm, h.2.symm⟩
    · rw [flush_assert_eq hbeg halign] at h
      simp at h

theorem init_ok_elim {b0 b : ToDiskBuffer} {m a c : Nat}
    (h : init b0 m a c = (none, b)) :
    is_power_of_2 a = true ∧ m % a = 0 ∧ c % a = 0 ∧ m ≤ size_t_max ∧
    b = { buff := List.replicate m 0, max_size := m, alignment := a,
          cluster_beg_offset := c, unflushed_data := { beg := 0, end_ := 0 } } := by
  unfold init at h
  split at h
  next => simp at h
  next h1 =>
    split at h
    next => simp at h
    next h2 =>
      split at h
      next => simp at h
      next h3 =>
        split at h
        next => simp at h
        next h4 =>
          simp only [Prod.mk.injEq] at h
          refine ⟨by simpa using h1, ?_, ?_, by omega, h.2.symm⟩
          · simpa [mod_by_power_of_2] using h2
          · simpa [mod_by_power_of_2] using h3

theorem memset_zero_length {l : List Nat} {p n : Nat} (h : p + n ≤ l.length) :
    (memset_zero l p n).length = l.length := by
  simp only [memset_zero, List.length_append, List.length_take,
    List.length_replicate, List.length_drop]
  omega

/-! ## The buffer invariant and reachable states -/

theorem Inv.alignment_pos {b : ToDiskBuffer} (hb : Inv b) : 0 < b.alignment :=
  is_power_of_2_pos hb.1

theorem Inv.end_le_rend {b : ToDiskBuffer} (hb : Inv b) :
    b.unflushed_data.end_ ≤ flushRend b :=
  round_up_ge _ _ hb.alignment_pos

theorem Inv.rend_le_max {b : ToDiskBuffer} (hb : Inv b) :
    flushRend b ≤ b.max_size :=
  round_up_le hb.alignment_pos hb.2.1 hb.2.2.2.2.2.1

theorem Inv.beg_le_rend {b : ToDiskBuffer} (hb : Inv b) :
    b.unflushed_data.beg ≤ flushRend b :=
  Nat.le_trans hb.2.2.2.2.1 hb.end_le_rend

theorem Inv.flushBuff_length {b : ToDiskBuffer} (hb : Inv b) :
    (flushBuff b).length = b.max_size := by
  rw [flushBuff, memset_zero_length, hb.2.2.2.2.2.2]
  rw [hb.2.2.2.2.2.2]
  have h1 := hb.end_le_rend
  have h2 := hb.rend_le_max
  omega

theorem Inv.flushState_inv {b : ToDiskBuffer} (hb : Inv b) :
    Inv (flushState b) := by
  obtain ⟨h1, h2, h3, h4, h5, h6, h7⟩ := hb
  refine ⟨h1, h2, h3, round_up_mod _ _, Nat.le_refl _, ?_, ?_⟩
  · exact Inv.rend_le_max ⟨h1, h2, h3, h4, h5, h6, h7⟩
  · exact Inv.flushBuff_length ⟨h1, h2, h3, h4, h5, h6, h7⟩

theorem acknowledge_write_elim {b b' : ToDiskBuffer} {len : Nat}
    (h : acknowledge_write b len = some b') :
    len ≤ bytes_left b ∧
    b' = { b with
           unflushed_data :=
             { b.unflushed_data with end_ := b.unflushed_data.end_ + len } } := by
  unfold acknowledge_write at h
  split at h
  next hle => exact ⟨hle, by simpa using h.symm⟩
  next => simp at h

theorem Inv.ack_inv {b b' : ToDiskBuffer} {len : Nat} (hb : Inv b)
    (h : acknowledge_write b len = some b') : Inv b' := by
  obtain ⟨hle, rfl⟩ := acknowledge_write_elim h
  obtain ⟨h1, h2, h3, h4, h5, h6, h7⟩ := hb
  rw [bytes_left] at hle
  refine ⟨h1, h2, h3, h4, ?_, ?_, h7⟩
  · show b.unflushed_data.beg ≤ b.unflushed_data.end_ + len
    omega
  · show b.unflushed_data.end_ + len ≤ b.max_size
    omega

/-- Every reachable state satisfies the invariant. -/
theorem reach_inv {b : ToDiskBuffer} {ws : List WriteReq}
    (h : Reachable b ws) : Inv b := by
  induction h with
  | init_ok b0 m a c b h =>
    obtain ⟨h1, h2, h3, _, rfl⟩ := init_ok_elim h
    exact ⟨h1, h2, h3, Nat.zero_mod _, Nat.le_refl _, Nat.zero_le _,
      List.length_replicate _ _⟩
  | ack b ws len b' hr h ih => exact ih.ack_inv h
  | write_data b ws buff2 hr h ih =>
    obtain ⟨h1, h2, h3, h4, h5, h6, h7⟩ := ih
    exact ⟨h1, h2, h3, h4, h5, h6, by rw [h, h7]⟩
  | flush_noop b ws b' hr h ih =>
    obtain ⟨rfl, -⟩ := flush_noop_elim h
    exact ih
  | flush_write b ws b' w hr h ih =>
    obtain ⟨-, -, rfl, -⟩ := flush_write_elim h
    exact ih.flushState_inv

/-! ## Ordering of the issued writes (trace invariant) -/

theorem reach_trace {b : ToDiskBuffer} {ws : List WriteReq}
    (h : Reachable b ws) : ∃ vs : List Nat, VirtualTrace ws vs b := by
  induction h with
  | init_ok b0 m a c b h =>
    refine ⟨[], rfl, ?_, ?_, ?_⟩ <;> intro i <;> intros <;> simp_all
  | ack b ws len b' hr h ih =>
    obtain ⟨-, rfl⟩ := acknowledge_write_elim h
    exact ih
  | write_data b ws buff2 hr h ih => exact ih
  | flush_noop b ws b' hr h ih =>
    obtain ⟨rfl, -⟩ := flush_noop_elim h
    exact ih
  | flush_write b ws b' w hr h ih =>
    obtain ⟨hbne, halign, rfl, rfl⟩ := flush_write_elim h
    obtain ⟨vs, hL, hP, hA, hT⟩ := ih
    have hb := reach_inv hr
    have hbr : b.unflushed_data.beg ≤ flushRend b := hb.beg_le_rend
    have hbm : b.unflushed_data.beg < b.max_size := by
      have h5 := hb.2.2.2.2.1
      have h6 := hb.2.2.2.2.2.1
      omega
    have wlen : (flushWriteReq b).length =
        flushRend b - b.unflushed_data.beg := rfl
    have hbeg' : (flushState b).unflushed_data.beg = flushRend b := rfl
    have hclu' : (flushState b).cluster_beg_offset = b.cluster_beg_offset := rfl
    have hmax' : (flushState b).max_size = b.max_size := rfl
    refine ⟨vs ++ [b.cluster_beg_offset + b.unflushed_data.beg], ?_, ?_, ?_, ?_⟩
    · simp [hL]
    · intro i wi v hi hv
      rw [hbeg', hclu', hmax']
      rcases Nat.lt_or_ge i ws.length with hlt | hge
      · rw [List.getElem?_append_left hlt] at hi
        rw [List.getElem?_append_left (by omega)] at hv
        obtain ⟨p1, p2, p3, p4⟩ := hP i wi v hi hv
        exact ⟨p1, p2, p3, by omega⟩
      · rcases Nat.eq_or_lt_of_le hge with heq | hgt
        · rw [← heq, List.getElem?_concat_length] at hi
          obtain rfl := Option.some.inj hi
          have heqv : vs.length = i := by omega
          rw [← heqv, List.getElem?_concat_length] at hv
          obtain rfl := Option.some.inj hv
          refine ⟨rfl, Nat.le_add_right _ _, by omega, ?_⟩
          rw [wlen]
          omega
        · rw [List.getElem?_eq_none (by simp; omega)] at hi
          simp at hi
    · intro i w1 v1 v2 h1 hv1 hv2
      rcases Nat.lt_or_ge (i + 1) vs.length with hlt | hge
      · rw [List.getElem?_append_left hlt] at hv2
        rw [List.getElem?_append_left (by omega)] at hv1
        rw [List.getElem?_append_left (by omega)] at h1
        exact hA i w1 v1 v2 h1 hv1 hv2
      · rcases Nat.eq_or_lt_of_le hge with heq | hgt
        · rw [← heq, List.getElem?_concat_length] at hv2
          obtain rfl := Option.some.inj hv2
          rw [List.getElem?_append_left (by omega)] at hv1
          rw [List.getElem?_append_left (by omega)] at h1
          have h1' : ws[ws.length - 1]? = some w1 := by
            have hid : ws.length - 1 = i := by omega
            rw [hid]; exact h1
          have hv1' : vs[vs.length - 1]? = some v1 := by
            have hid : vs.length - 1 = i := by omega
            rw [hid]; exact hv1
          exact (hT w1 v1 h1' hv1').symm
        · rw [List.getElem?_eq_none (by simp; omega)] at hv2
          simp at hv2
    · intro wl vl hw hv
      have hlw : (ws ++ [flushWriteReq b]).length - 1 = ws.length := by simp
      have hlv :
          (vs ++ [b.cluster_beg_offset + b.unflushed_data.beg]).length - 1 =
            vs.length := by simp
      rw [hlw, List.getElem?_concat_length] at hw
      rw [hlv, List.getElem?_concat_length] at hv
      obtain rfl := Option.some.inj hw
      obtain rfl := Option.some.inj hv
      rw [hbeg', hclu', wlen]
      omega

/-- From pairwise adjacency of the virtual positions: any earlier write's
virtual disk range ends at or before any later write's virtual start. -/
theorem virtual_mono {ws : List WriteReq} {vs : List Nat}
    (hL : vs.length = ws.length)
    (hA : ∀ (i : Nat) (w1 : WriteReq) (v1 v2 : Nat), ws[i]? = some w1 →
      vs[i]? = some v1 → vs[i + 1]? = some v2 → v2 = v1 + w1.length)
    (i : Nat) (wi : WriteReq) (v : Nat) (hwi : ws[i]? = some wi)
    (hvi : vs[i]? = some v) :
    ∀ (j : Nat) (vj : Nat), i < j → vs[j]? = some vj →
      v + wi.length ≤ vj := by
  intro j
  induction j with
  | zero => intro vj hij hj; omega
  | succ j ih =>
    intro vj hij hj
    have hj1 : j + 1 < vs.length := by
      by_contra hc
      rw [List.getElem?_eq_none (by omega)] at hj
      simp at hj
    have hjv : j < vs.length := by omega
    have hjw : j < ws.length := by omega
    have hv' := List.getElem?_eq_getElem hjv
    have hw' := List.getElem?_eq_getElem hjw
    have hadj := hA j _ _ vj hw' hv' hj
    rcases Nat.lt_or_ge i j with hlt | hge
    · have hmono := ih _ hlt hv'
      omega
    · have hieq : i = j := by omega
      subst hieq
      rw [hvi] at hv'
      obtain rfl := Option.some.inj hv'
      rw [hwi] at hw'
      obtain rfl := Option.some.inj hw'
      omega

/-- Elements of the zero-filled region of a `memset_zero` are zero. -/
theorem memset_zero_getElem {l : List Nat} {p n i : Nat}
    (h1 : p ≤ i) (h2 : i < p + n) (h3 : p + n ≤ l.length) :
    (memset_zero l p n)[i]? = some 0 := by
  unfold memset_zero
  have htl : (l.take p).length = p := by
    rw [List.length_take]; omega
  rw [List.getElem?_append_left (by
    rw [List.length_append, htl, List.length_replicate]; omega)]
  rw [List.getElem?_append_right (by rw [htl]; omega)]
  rw [htl]
  exact List.getElem?_replicate_of_lt (by omega)

/-- Under the invariant, the alignment `assert` in `flush_to_disk` cannot
fire. -/
theorem flush_no_assert {b : ToDiskBuffer} (hb : Inv b) :
    flush_to_disk b ≠ none := by
  by_cases hbeg : b.unflushed_data.beg = b.max_size
  · rw [flush_noop_eq hbeg]; simp
  · rw [flush_write_eq hbeg hb.2.2.2.1]; simp

/-! ## The claims -/

/-- Claim C2: `init(max_size, alignment, cluster_beg_offset)` fails, returning
the specific error and leaving every field of the buffer unchanged, exactly
when the alignment is not a power of two (`ALIGNMENT_IS_NOT_2_POWER`), the max
size is not a multiple of the alignment (`MAX_SIZE_IS_NOT_ALIGNED`), the
cluster offset is not a multiple of the alignment
(`CLUSTER_BEG_OFFSET_IS_NOT_ALIGNED`), or the max size exceeds the buffer
length type's maximum (`MAX_SIZE_TOO_BIG`); otherwise it succeeds, allocates a
buffer of `max_size` bytes and resets the unflushed range to `[0, 0)`.  The
checks are performed in source order, so each error is reported exactly when
its condition fails and all earlier checks pass. -/
theorem C2_init_characterization (b : ToDiskBuffer) (m a c : Nat) :
    ((init b m a c).1 = none ↔
      (is_power_of_2 a = true ∧ m % a = 0 ∧ c % a = 0 ∧ m ≤ size_t_max)) ∧
    ((init b m a c).1 = some .ALIGNMENT_IS_NOT_2_POWER ↔
      is_power_of_2 a = false) ∧
    ((init b m a c).1 = some .MAX_SIZE_IS_NOT_ALIGNED ↔
      (is_power_of_2 a = true ∧ m % a ≠ 0)) ∧
    ((init b m a c).1 = some .CLUSTER_BEG_OFFSET_IS_NOT_ALIGNED ↔
      (is_power_of_2 a = true ∧ m % a = 0 ∧ c % a ≠ 0)) ∧
    ((init b m a c).1 = some .MAX_SIZE_TOO_BIG ↔
      (is_power_of_2 a = true ∧ m % a = 0 ∧ c % a = 0 ∧ size_t_max < m)) ∧
    (∀ e : InitError, (init b m a c).1 = some e → (init b m a c).2 = b) ∧
    ((init b m a c).1 = none →
      (init b m a c).2.max_size = m ∧ (init b m a c).2.alignment = a ∧
      (init b m a c).2.cluster_beg_offset = c ∧
      (init b m a c).2.unflushed_data = { beg := 0, end_ := 0 } ∧
      (init b m a c).2.buff.length = m) := by
  unfold init mod_by_power_of_2
  by_cases h1 : is_power_of_2 a = true
  · by_cases h2 : m % a = 0
    · by_cases h3 : c % a = 0
      · by_cases h4 : m > size_t_max
        · simp [h1, h2, h3, h4]
        · simp [h1, h2, h3, h4, List.length_replicate]
          omega
      · simp [h1, h2, h3]
    · simp [h1, h2]
  · simp [h1, Bool.not_eq_true _ ▸ h1]

/-- Witness for C2: concrete success, concrete failure with the specific
error and untouched state, and the allocated length on success. -/
theorem C2_init_characterization_witness :
    (init to_disk_buffer_default 8 4 0).1 = none ∧
    (init to_disk_buffer_default 8 4 2).1 =
      some .CLUSTER_BEG_OFFSET_IS_NOT_ALIGNED ∧
    (init to_disk_buffer_default 8 4 2).2 = to_disk_buffer_default ∧
    (init to_disk_buffer_default 8 4 0).2.buff.length = 8 := by
  refine ⟨?_, ?_, ?_, ?_⟩
  · exact (C2_init_characterization to_disk_buffer_default 8 4 0).1.mpr
      (by decide)
  · exact (C2_init_characterization to_disk_buffer_default 8 4 2).2.2.2.1.mpr
      (by decide)
  · exact (C2_init_characterization to_disk_buffer_default 8 4 2).2.2.2.2.2.1 _
      ((C2_init_characterization to_disk_buffer_default 8 4 2).2.2.2.1.mpr
        (by decide))
  · exact ((C2_init_characterization to_disk_buffer_default 8 4 0).2.2.2.2.2.2
      ((C2_init_characterization to_disk_buffer_default 8 4 0).1.mpr
        (by decide))).2.2.2.2

/-- Claim C10: Every error kind defined in the filesystem exception header is a
subtype of the common base `fs_exception`, except
`cluster_size_too_small_to_perform_operation_exception`, which derives
directly from `std::exception` and is therefore not caught by a handler
matching the `fs_exception` base class. -/
theorem C10_exception_hierarchy :
    (∀ e ∈ fsErrorKinds,
      e ≠ .cluster_size_too_small_to_perform_operation_exception →
        isSubclassOf e .fs_exception = true) ∧
    isSubclassOf .cluster_size_too_small_to_perform_operation_exception
      .fs_exception = false ∧
    directBase .cluster_size_too_small_to_perform_operation_exception =
      some .std_exception := by
  decide

/-- Witness for C10 at a concrete error kind. -/
theorem C10_exception_hierarchy_witness :
    isSubclassOf .invalid_inode_exception .fs_exception = true :=
  C10_exception_hierarchy.1 .invalid_inode_exception (by decide) (by decide)

/-- Claim C5 counterexample: A buffer whose unflushed range is empty but does
not begin at `max_size` (here: right after `init`) still issues a device
write — of length zero — because the no-op guard in `flush_to_disk` tests
`beg == max_size`, not emptiness of the range. -/
theorem C5_counterexample :
    bufEx.unflushed_data.beg = bufEx.unflushed_data.end_ ∧
    bufEx.unflushed_data.beg ≠ bufEx.max_size ∧
    flush_to_disk bufEx =
      some (bufEx, some { offset := 0, data := [], length := 0 }) := by
  decide

/-- Claim C5, amended: Calling `flush_to_disk` on a buffer whose unflushed
range begins at `max_size` (the buffer is fully consumed — the only "empty"
case the guard recognizes) issues no write to the device, completes
immediately, and leaves the buffer state unchanged. -/
theorem C5_flush_noop (b : ToDiskBuffer)
    (h : b.unflushed_data.beg = b.max_size) :
    flush_to_disk b = some (b, none) :=
  flush_noop_eq h

/-- Witness for the amended C5 at a fully consumed buffer. -/
theorem C5_flush_noop_witness :
    flush_to_disk bufEx8 = some (bufEx8, none) :=
  C5_flush_noop bufEx8 (by decide)

/-- Claim C7: The future of a flush's device write fails with the partial-write
error iff the device reports fewer bytes written than requested (a device
write never transfers more than requested), completes successfully on
equality, and the completion offers no retry path. -/
theorem C7_partial_write_error (requested written : Nat)
    (hle : written ≤ requested) :
    (flush_write_completion requested written = .shortWriteError ↔
      written < requested) ∧
    (written = requested → flush_write_completion requested written = .ok) := by
  by_cases hw : written = requested
  · subst hw; simp [flush_write_completion]
  · simp [flush_write_completion, hw]
    omega

/-- Witness for C7: short write fails, exact write succeeds. -/
theorem C7_partial_write_error_witness :
    flush_write_completion 4 3 = .shortWriteError ∧
    flush_write_completion 4 4 = .ok :=
  ⟨(C7_partial_write_error 4 3 (by decide)).1.mpr (by decide),
   (C7_partial_write_error 4 4 (by decide)).2 rfl⟩

/-- Claim C3: A non-no-op `flush_to_disk` issues exactly one device write (the
single `device.write` of the model), at disk offset
`cluster_beg_offset + unflushed.beg` (the source's u64 sum, i.e. reduced
modulo `2 ^ 64`), covering exactly the buffer range from `unflushed.beg` to
`unflushed.end` rounded up to the next multiple of the alignment; under the
`init` postconditions (the invariant) the disk offset and the length of the
write are both multiples of the alignment — even a wrapped offset stays
alignment-aligned, since the alignment is a power of two. -/
theorem C3_flush_write_shape {b b' : ToDiskBuffer} {w : WriteReq}
    (hb : Inv b) (h : flush_to_disk b = some (b', some w)) :
    w.offset = (b.cluster_beg_offset + b.unflushed_data.beg) % uint64_mod ∧
    w.length =
      round_up_to_multiple_of_power_of_2 b.unflushed_data.end_ b.alignment -
        b.unflushed_data.beg ∧
    w.data.length = w.length ∧
    w.offset % b.alignment = 0 ∧
    w.length % b.alignment = 0 := by
  obtain ⟨hbne, halign, -, rfl⟩ := flush_write_elim h
  refine ⟨rfl, rfl, ?_, ?_, ?_⟩
  · show (((flushBuff b).drop b.unflushed_data.beg).take
      (flushRend b - b.unflushed_data.beg)).length =
        flushRend b - b.unflushed_data.beg
    rw [List.length_take, List.length_drop, hb.flushBuff_length]
    have h1 := hb.beg_le_rend
    have h2 := hb.rend_le_max
    omega
  · show ((b.cluster_beg_offset + b.unflushed_data.beg) % uint64_mod) %
      b.alignment = 0
    obtain ⟨k, hk⟩ := (is_power_of_2_iff b.alignment).mp hb.1
    have hc : b.cluster_beg_offset % 2 ^ k = 0 := hk ▸ hb.2.2.1
    have hbga : b.unflushed_data.beg % 2 ^ k = 0 := hk ▸ halign
    rw [hk]
    show ((b.cluster_beg_offset + b.unflushed_data.beg) % 2 ^ 64) % 2 ^ k = 0
    rcases Nat.lt_or_ge 64 k with hk64 | hk64
    swap
    · rw [Nat.mod_mod_of_dvd _ (Nat.pow_dvd_pow 2 hk64)]
      rw [Nat.add_mod, hc, hbga]
      simp
    · have hdvd : (2 : Nat) ^ 64 ∣
          b.cluster_beg_offset + b.unflushed_data.beg :=
        Nat.dvd_trans (Nat.pow_dvd_pow 2 (by omega))
          (Nat.dvd_add (Nat.dvd_of_mod_eq_zero hc)
            (Nat.dvd_of_mod_eq_zero hbga))
      obtain ⟨t, ht⟩ := hdvd
      rw [ht, Nat.mul_mod_right]
      simp
  · show (flushRend b - b.unflushed_data.beg) % b.alignment = 0
    exact sub_mod_eq_zero (round_up_mod _ _) halign

/-- Witness for C3 at a concrete flush: offset `(4 + 0) % 2^64`, length `4`,
both multiples of the alignment `4`. -/
theorem C3_flush_write_shape_witness :
    ({ offset := 4, data := [0, 0, 0, 0], length := 4 } : WriteReq).offset =
        (bufExMid.cluster_beg_offset + bufExMid.unflushed_data.beg) %
          uint64_mod ∧
    ({ offset := 4, data := [0, 0, 0, 0], length := 4 } : WriteReq).offset %
        bufExMid.alignment = 0 := by
  have h := @C3_flush_write_shape bufExMid bufExMid4 wExMid
    (by decide) (by decide)
  exact ⟨h.1, h.2.2.2.1⟩

/-- Claim C4: In every non-no-op flush, each byte of the issued write lying at or
beyond the true unflushed `end` (the zero-filled padding up to the rounded
end) is zero: all bytes written to the device beyond the end of the appended
data are zero. -/
theorem C4_padding_zero {b b' : ToDiskBuffer} {w : WriteReq}
    (hb : Inv b) (h : flush_to_disk b = some (b', some w)) :
    ∀ j : Nat, j < w.length →
      b.unflushed_data.end_ ≤ b.unflushed_data.beg + j →
      w.data[j]? = some 0 := by
  obtain ⟨hbne, halign, -, rfl⟩ := flush_write_elim h
  intro j hj hpad
  have hwl : (flushWriteReq b).length = flushRend b - b.unflushed_data.beg := rfl
  rw [hwl] at hj
  show (((flushBuff b).drop b.unflushed_data.beg).take
    (flushRend b - b.unflushed_data.beg))[j]? = some 0
  rw [List.getElem?_take_of_lt hj, List.getElem?_drop]
  have h1 := hb.end_le_rend
  have h2 := hb.rend_le_max
  have h3 := hb.2.2.2.2.1
  exact memset_zero_getElem hpad (by omega) (by rw [hb.2.2.2.2.2.2]; omega)

/-- Witness for C4: the padding byte at index 3 of the concrete write (true
end 3, rounded end 4) is zero. -/
theorem C4_padding_zero_witness :
    (([0, 0, 0, 0] : List Nat))[3]? = some 0 := by
  have h := @C4_padding_zero bufExMid bufExMid4 wExMid
    (by decide) (by decide) 3 (by decide) (by decide)
  exact h

/-- Claim C6: Immediately after a non-no-op `flush_to_disk` returns — before the
write's completion is observed — the unflushed range equals
`[rounded_end, rounded_end)`, so `bytes_left()` of the new state equals what
`bytes_left_after_flush_if_done_now()` returned on the state just before the
flush. -/
theorem C6_reset_to_rounded_end {b b' : ToDiskBuffer} {w : WriteReq}
    (h : flush_to_disk b = some (b', some w)) :
    b'.unflushed_data =
      { beg := round_up_to_multiple_of_power_of_2 b.unflushed_data.end_
          b.alignment,
        end_ := round_up_to_multiple_of_power_of_2 b.unflushed_data.end_
          b.alignment } ∧
    bytes_left b' = bytes_left_after_flush_if_done_now b := by
  obtain ⟨-, -, rfl, -⟩ := flush_write_elim h
  exact ⟨rfl, rfl⟩

/-- Witness for C6 at a concrete flush: the range resets to `[4, 4)` and
`bytes_left` matches the pre-flush prediction. -/
theorem C6_reset_to_rounded_end_witness :
    ({ bufExMid with
       unflushed_data := { beg := 4, end_ := 4 } }).unflushed_data =
      { beg := 4, end_ := 4 } ∧
    bytes_left { bufExMid with unflushed_data := { beg := 4, end_ := 4 } } =
      bytes_left_after_flush_if_done_now bufExMid := by
  have h := @C6_reset_to_rounded_end bufExMid bufExMid4 wExMid
    (by decide)
  exact ⟨by decide, h.2⟩

/-- Claim C8: In every reachable state, `bytes_left()` equals `max_size` minus
the unflushed `end` (which stays within `max_size`, so the subtraction never
truncates — `bytes_left` never goes negative), and every successful
`acknowledge_write` of `len` bytes decreases `bytes_left()` by exactly
`len`. -/
theorem C8_bytes_left_conservation {b : ToDiskBuffer} {ws : List WriteReq}
    (hr : Reachable b ws) :
    bytes_left b = b.max_size - b.unflushed_data.end_ ∧
    b.unflushed_data.end_ ≤ b.max_size ∧
    ∀ (len : Nat) (b' : ToDiskBuffer), acknowledge_write b len = some b' →
      bytes_left b' + len = bytes_left b ∧
      b'.unflushed_data.end_ ≤ b'.max_size := by
  have hb := reach_inv hr
  refine ⟨rfl, hb.2.2.2.2.2.1, ?_⟩
  intro len b' h
  obtain ⟨hle, rfl⟩ := acknowledge_write_elim h
  rw [bytes_left] at hle
  have h6 := hb.2.2.2.2.2.1
  constructor
  · show b.max_size - (b.unflushed_data.end_ + len) + len =
      b.max_size - b.unflushed_data.end_
    omega
  · show b.unflushed_data.end_ + len ≤ b.max_size
    omega

/-- Witness for C8 on the concrete post-`init` state: a 3-byte append
decreases `bytes_left` from 8 to 5. -/
theorem C8_bytes_left_conservation_witness :
    bytes_left bufEx3 + 3 = bytes_left bufEx ∧ bytes_left bufEx = 8 := by
  have hr : Reachable bufEx [] :=
    .init_ok to_disk_buffer_default 8 4 0 bufEx (by decide)
  have h := (C8_bytes_left_conservation hr).2.2 3 bufEx3 (by decide)
  exact ⟨h.1, by decide⟩

/-- Claim C9: Under the caller precondition `len ≤ bytes_left()`, the assertion
in `acknowledge_write` never fires; every reachable state satisfies
`beg ≤ end ≤ max_size`, and `beg` is alignment-aligned, so the alignment
`assert` at the start of every flush cannot fire either. -/
theorem C9_assert_safety {b : ToDiskBuffer} {ws : List WriteReq}
    (hr : Reachable b ws) :
    (∀ len : Nat, len ≤ bytes_left b →
      (acknowledge_write b len).isSome = true) ∧
    b.unflushed_data.beg ≤ b.unflushed_data.end_ ∧
    b.unflushed_data.end_ ≤ b.max_size ∧
    b.unflushed_data.beg % b.alignment = 0 ∧
    flush_to_disk b ≠ none := by
  have hb := reach_inv hr
  refine ⟨?_, hb.2.2.2.2.1, hb.2.2.2.2.2.1, hb.2.2.2.1, flush_no_assert hb⟩
  intro len hle
  unfold acknowledge_write
  rw [if_pos hle]
  rfl

/-- Witness for C9 on the concrete post-`init` state. -/
theorem C9_assert_safety_witness :
    (acknowledge_write bufEx 8).isSome = true ∧ flush_to_disk bufEx ≠ none := by
  have hr : Reachable bufEx [] :=
    .init_ok to_disk_buffer_default 8 4 0 bufEx (by decide)
  have h := C9_assert_safety hr
  exact ⟨h.1 8 (by decide), h.2.2.2.2⟩

/-- Claim C1 counterexample: the claim as stated fails on the program's u64
offset arithmetic.  `init(8, 4, 2^64 - 4)` passes every check (2^64 - 4 is a
multiple of the alignment 4); on the resulting buffer the first flush writes
4 bytes at u64 offset `2^64 - 4`, and the second flush's offset
`(2^64 - 4) + 4` wraps to `0`: the issued ranges go backward instead of
being strictly increasing, the ranges' ordering claim fails, and the second
write does not begin at the first write's rounded end. -/
theorem C1_counterexample :
    Reachable bufW8 [wW1, wW2] ∧
    0 < wW1.length ∧
    ¬ (wW1.offset + wW1.length ≤ wW2.offset) ∧
    ¬ (wW1.offset < wW2.offset) ∧
    ¬ (wW2.offset = wW1.offset + wW1.length) := by
  refine ⟨?_, by decide, by decide, by decide, by decide⟩
  exact Reachable.flush_write bufW6 [wW1] bufW8 wW2
    (Reachable.ack bufW4 [wW1] 2 bufW6
      (Reachable.flush_write bufW3 [] bufW4 wW1
        (Reachable.ack bufW [] 3 bufW3
          (Reachable.init_ok to_disk_buffer_default 8 4 (2 ^ 64 - 4) bufW
            (by decide))
          (by decide))
        (by decide))
      (by decide))
    (by decide)

/-- Claim C1, amended: for every sequence of flushes on one successfully
initialized buffer (with arbitrary valid appends in between), each issued
write's disk offset equals the previous write's end reduced modulo `2 ^ 64`
(the u64 offset arithmetic of the device interface); whenever the buffer's
disk span does not cross the 64-bit boundary — `cluster_beg_offset +
max_size ≤ 2^64`, true of any addressable device placement — the issued
ranges never overlap, never go backward, and are strictly increasing
whenever the earlier write is non-empty. -/
theorem C1_flush_ordering_u64 {b : ToDiskBuffer} {ws : List WriteReq}
    (hr : Reachable b ws) :
    (∀ (i : Nat) (w1 w2 : WriteReq), ws[i]? = some w1 → ws[i + 1]? = some w2 →
      w2.offset = (w1.offset + w1.length) % uint64_mod) ∧
    (b.cluster_beg_offset + b.max_size ≤ uint64_mod →
      ∀ (i j : Nat) (wi wj : WriteReq), i < j → ws[i]? = some wi →
        ws[j]? = some wj →
        wi.offset + wi.length ≤ wj.offset ∧
        (0 < wi.length → wi.offset < wj.offset)) := by
  obtain ⟨vs, hL, hP, hA, hT⟩ := reach_trace hr
  constructor
  · intro i w1 w2 h1 h2
    have hi1 : i + 1 < ws.length := by
      by_contra hc
      rw [List.getElem?_eq_none (by omega)] at h2
      simp at h2
    have hiv : i < vs.length := by omega
    have hiv1 : i + 1 < vs.length := by omega
    have hv1 := List.getElem?_eq_getElem hiv
    have hv2 := List.getElem?_eq_getElem hiv1
    have hadj := hA i w1 _ _ h1 hv1 hv2
    obtain ⟨ho1, -, -, -⟩ := hP i w1 _ h1 hv1
    obtain ⟨ho2, -, -, -⟩ := hP (i + 1) w2 _ h2 hv2
    rw [ho2, ho1, hadj, Nat.mod_add_mod]
  · intro hnw i j wi wj hij hi hj
    have hjw : j < ws.length := by
      by_contra hc
      rw [List.getElem?_eq_none (by omega)] at hj
      simp at hj
    have hiv : i < vs.length := by omega
    have hjv : j < vs.length := by omega
    have hvi := List.getElem?_eq_getElem hiv
    have hvj := List.getElem?_eq_getElem hjv
    obtain ⟨hoi, -, hbi, -⟩ := hP i wi _ hi hvi
    obtain ⟨hoj, -, hbj, -⟩ := hP j wj _ hj hvj
    have hmono := virtual_mono hL hA i wi _ hi hvi j _ hij hvj
    have hvism : vs[i] < uint64_mod := by omega
    have hvjsm : vs[j] < uint64_mod := by omega
    rw [hoi, hoj, Nat.mod_eq_of_lt hvism, Nat.mod_eq_of_lt hvjsm]
    exact ⟨hmono, by omega⟩

/-- Witness for the amended C1 on a concrete two-flush trace (no wrap):
u64 adjacency, and non-overlap of the issued ranges. -/
theorem C1_flush_ordering_u64_witness :
    wEx2.offset = (wEx1.offset + wEx1.length) % uint64_mod ∧
    wEx1.offset + wEx1.length ≤ wEx2.offset := by
  have hr : Reachable bufEx8 [wEx1, wEx2] :=
    .flush_write bufEx6 [wEx1] bufEx8 wEx2
      (.ack bufEx4 [wEx1] 2 bufEx6
        (.flush_write bufEx3 [] bufEx4 wEx1
          (.ack bufEx [] 3 bufEx3
            (.init_ok to_disk_buffer_default 8 4 0 bufEx (by decide))
            (by decide))
          (by decide))
        (by decide))
      (by decide)
  have h := C1_flush_ordering_u64 hr
  exact ⟨h.1 0 wEx1 wEx2 rfl rfl,
    (h.2 (by decide) 0 1 wEx1 wEx2 (by decide) rfl rfl).1⟩

end SeastarFs
